import Mathlib

/-!
Verification of `src/modem.py` (USB modem controller).

Shallow embedding of the repository's code.  Python strings are modelled as
`List Char` where character-level reasoning is needed (line classification,
stripping, integer parsing of interactive input) and as Lean `String` for
opaque values (device paths, AT-command byte strings, file names).  Character
casing and whitespace are modelled over the ASCII range, which is the range
the source's string constants live in.
-/

namespace Modem

/-- Python truthiness of an optional string (`None` and `""` are falsy). -/
def pyTruthy : Option String → Bool
  | none => false
  | some s => !s.isEmpty

/-- ASCII whitespace characters stripped by Python `str.strip()`. -/
def isSpaceChar (c : Char) : Bool :=
  c = ' ' || c = '\t' || c = '\n' || c = Char.ofNat 11 || c = Char.ofNat 12 || c = '\r'

/-- Python `str.strip()` on a character list. -/
def pyStrip (s : List Char) : List Char :=
  ((s.dropWhile isSpaceChar).reverse.dropWhile isSpaceChar).reverse

/-- One character of Python `str.upper()` (ASCII range, the range the
source's `"RING"` constant lives in). -/
def upperChar (c : Char) : Char :=
  if 97 ≤ c.toNat ∧ c.toNat ≤ 122 then Char.ofNat (c.toNat - 32) else c

/-- Does `hay` start with `needle`? (helper for the Python `in` operator) -/
def startsWithSeq : List Char → List Char → Bool
  | [], _ => true
  | _ :: _, [] => false
  | c :: cs, d :: ds => c = d && startsWithSeq cs ds

/-- Python's substring test `needle in hay`. -/
def containsSeq (needle : List Char) : List Char → Bool
  | [] => needle.isEmpty
  | d :: ds => startsWithSeq needle (d :: ds) || containsSeq needle ds

/-- Model of `is_ring_line` from `src/modem.py`: falsy (empty) line → `False`,
otherwise `"RING" in line.upper()`. -/
def is_ring_line (s : List Char) : Bool :=
  if s = [] then false
  else containsSeq ['R', 'I', 'N', 'G'] (s.map upperChar)

/-- The spec's wording: `needle` occurs contiguously inside `hay`. -/
def substrAt (needle hay : List Char) : Prop := ∃ a b, hay = a ++ needle ++ b

/-- The spec's wording: `s` contains the substring `RING` in some letter case. -/
def containsRingAnyCase (s : List Char) : Prop :=
  ∃ c1 c2 c3 c4, substrAt [c1, c2, c3, c4] s ∧
    (c1 = 'R' ∨ c1 = 'r') ∧ (c2 = 'I' ∨ c2 = 'i') ∧
    (c3 = 'N' ∨ c3 = 'n') ∧ (c4 = 'G' ∨ c4 = 'g')

/-- The spec's wording: `s` consists only of whitespace (vacuously true of ``""``). -/
def whitespaceOnly (s : List Char) : Prop := ∀ c ∈ s, isSpaceChar c = true

theorem startsWithSeq_iff (needle : List Char) :
    ∀ hay, startsWithSeq needle hay = true ↔ ∃ t, hay = needle ++ t := by
  induction needle with
  | nil => intro hay; simp [startsWithSeq]
  | cons c cs ih =>
    intro hay
    cases hay with
    | nil => simp [startsWithSeq]
    | cons d ds =>
      simp only [startsWithSeq, Bool.and_eq_true, decide_eq_true_eq, ih ds]
      constructor
      · rintro ⟨rfl, t, rfl⟩; exact ⟨t, rfl⟩
      · rintro ⟨t, h⟩
        simp only [List.cons_append, List.cons.injEq] at h
        exact ⟨h.1.symm, t, h.2⟩

theorem containsSeq_iff (needle : List Char) :
    ∀ hay, containsSeq needle hay = true ↔ substrAt needle hay := by
  intro hay
  induction hay with
  | nil =>
    simp only [containsSeq, List.isEmpty_iff, substrAt]
    constructor
    · rintro rfl; exact ⟨[], [], rfl⟩
    · rintro ⟨a, b, h⟩
      rcases List.append_eq_nil.1 h.symm with ⟨h1, h2⟩
      exact (List.append_eq_nil.1 h1).2
  | cons d ds ih =>
    simp only [containsSeq, Bool.or_eq_true, startsWithSeq_iff, ih]
    constructor
    · rintro (⟨t, ht⟩ | ⟨a, b, hab⟩)
      · exact ⟨[], t, by simpa using ht⟩
      · exact ⟨d :: a, b, by simp [hab]⟩
    · rintro ⟨a, b, h⟩
      cases a with
      | nil => exact Or.inl ⟨b, by simpa using h⟩
      | cons x xs =>
        simp only [List.cons_append, List.cons.injEq] at h
        exact Or.inr ⟨xs, b, h.2⟩

theorem toNat_ofNat_lt {n : Nat} (h : n < 55296) : (Char.ofNat n).toNat = n := by
  rw [Char.ofNat, dif_pos (Or.inl h)]
  rfl

theorem upperChar_eq_iff {U L : Char} (hU : 65 ≤ U.toNat ∧ U.toNat ≤ 90)
    (hL : L.toNat = U.toNat + 32) (c : Char) :
    upperChar c = U ↔ c = U ∨ c = L := by
  constructor
  · intro h
    unfold upperChar at h
    split at h
    · rename_i hc
      right
      have h1 : (Char.ofNat (c.toNat - 32)).toNat = c.toNat - 32 := toNat_ofNat_lt (by omega)
      have h2 : c.toNat = L.toNat := by
        have := congrArg Char.toNat h
        rw [h1] at this
        omega
      calc c = Char.ofNat c.toNat := (Char.ofNat_toNat c).symm
        _ = Char.ofNat L.toNat := by rw [h2]
        _ = L := Char.ofNat_toNat L
    · exact Or.inl h
  · intro h
    rcases h with rfl | rfl
    · unfold upperChar
      rw [if_neg (by omega)]
    · unfold upperChar
      rw [if_pos (by omega)]
      have h3 : c.toNat - 32 = U.toNat := by omega
      rw [h3, Char.ofNat_toNat]

theorem upperChar_eq_R (c : Char) : upperChar c = 'R' ↔ c = 'R' ∨ c = 'r' :=
  upperChar_eq_iff (by decide) (by decide) c

theorem upperChar_eq_I (c : Char) : upperChar c = 'I' ↔ c = 'I' ∨ c = 'i' :=
  upperChar_eq_iff (by decide) (by decide) c

theorem upperChar_eq_N (c : Char) : upperChar c = 'N' ↔ c = 'N' ∨ c = 'n' :=
  upperChar_eq_iff (by decide) (by decide) c

theorem upperChar_eq_G (c : Char) : upperChar c = 'G' ↔ c = 'G' ∨ c = 'g' :=
  upperChar_eq_iff (by decide) (by decide) c

theorem ring_containsSeq_iff (s : List Char) :
    containsSeq ['R', 'I', 'N', 'G'] (s.map upperChar) = true ↔ containsRingAnyCase s := by
  rw [containsSeq_iff]
  constructor
  · rintro ⟨a, b, h⟩
    rw [List.map_eq_append_iff] at h
    obtain ⟨ar, b', rfl, har, hb⟩ := h
    rw [List.map_eq_append_iff] at har
    obtain ⟨a', m, rfl, ha, hm⟩ := har
    obtain ⟨c1, m1, rfl, hc1, hm1⟩ := List.map_eq_cons_iff.1 hm
    obtain ⟨c2, m2, rfl, hc2, hm2⟩ := List.map_eq_cons_iff.1 hm1
    obtain ⟨c3, m3, rfl, hc3, hm3⟩ := List.map_eq_cons_iff.1 hm2
    obtain ⟨c4, m4, rfl, hc4, hm4⟩ := List.map_eq_cons_iff.1 hm3
    have hm4nil : m4 = [] := List.map_eq_nil_iff.1 hm4
    subst hm4nil
    exact ⟨c1, c2, c3, c4, ⟨a', b', rfl⟩,
      (upperChar_eq_R c1).1 hc1, (upperChar_eq_I c2).1 hc2,
      (upperChar_eq_N c3).1 hc3, (upperChar_eq_G c4).1 hc4⟩
  · rintro ⟨c1, c2, c3, c4, ⟨a, b, rfl⟩, h1, h2, h3, h4⟩
    refine ⟨a.map upperChar, b.map upperChar, ?_⟩
    have e1 : upperChar c1 = 'R' := (upperChar_eq_R c1).2 h1
    have e2 : upperChar c2 = 'I' := (upperChar_eq_I c2).2 h2
    have e3 : upperChar c3 = 'N' := (upperChar_eq_N c3).2 h3
    have e4 : upperChar c4 = 'G' := (upperChar_eq_G c4).2 h4
    simp [e1, e2, e3, e4]

theorem is_ring_line_iff (s : List Char) :
    is_ring_line s = true ↔ containsRingAnyCase s := by
  unfold is_ring_line
  split
  · rename_i hs
    subst hs
    simp only [Bool.false_eq_true, false_iff]
    rintro ⟨c1, c2, c3, c4, ⟨a, b, h⟩, _⟩
    simp at h
  · exact ring_containsSeq_iff s

instance instDecContainsRing (s : List Char) : Decidable (containsRingAnyCase s) :=
  decidable_of_iff (containsSeq ['R', 'I', 'N', 'G'] (s.map upperChar) = true)
    (ring_containsSeq_iff s)

instance instDecWhitespaceOnly (s : List Char) : Decidable (whitespaceOnly s) :=
  List.decidableBAll (fun c => isSpaceChar c = true) s

theorem whitespaceOnly_not_ring {s : List Char} (h : whitespaceOnly s) :
    ¬ containsRingAnyCase s := by
  rintro ⟨c1, c2, c3, c4, ⟨a, b, hs⟩, h1, _, _, _⟩
  have hc1 : c1 ∈ s := by rw [hs]; simp
  have hw := h c1 hc1
  rcases h1 with rfl | rfl <;> exact absurd hw (by decide)

/-- Claim C2: for every string `s`: if `s` contains the substring `RING` in any
letter case then `is_ring_line s` is true; if `s` is empty or whitespace-only
then `is_ring_line s` is false; if `s` does not contain that substring in any
case then `is_ring_line s` is false.  (Empty strings satisfy `whitespaceOnly`
vacuously; casing modelled over ASCII.) -/
theorem c2_is_ring_line_classifier (s : List Char) :
    (containsRingAnyCase s → is_ring_line s = true) ∧
    (whitespaceOnly s → is_ring_line s = false) ∧
    (¬ containsRingAnyCase s → is_ring_line s = false) := by
  refine ⟨fun h => (is_ring_line_iff s).2 h, fun hw => ?_, fun h => ?_⟩
  · cases hb : is_ring_line s
    · rfl
    · exact absurd ((is_ring_line_iff s).1 hb) (whitespaceOnly_not_ring hw)
  · cases hb : is_ring_line s
    · rfl
    · exact absurd ((is_ring_line_iff s).1 hb) h

theorem c2_is_ring_line_classifier_witness :
    is_ring_line [' ', 'r', 'i', 'N', 'G'] = true ∧
    is_ring_line [' ', '\t'] = false ∧
    is_ring_line ['N', 'O', ' ', 'C', 'A', 'R', 'R', 'I', 'E', 'R'] = false :=
  ⟨(c2_is_ring_line_classifier _).1
      ⟨'r', 'i', 'N', 'G', ⟨[' '], [], rfl⟩, by decide, by decide, by decide, by decide⟩,
   (c2_is_ring_line_classifier _).2.1 (by decide),
   (c2_is_ring_line_classifier _).2.2 (by decide)⟩

/-- Ordered glob pattern lists used by `detect_default_port`, per platform. -/
def platform_patterns (system : String) : List String :=
  if system = "Darwin" then
    ["/dev/cu.usbserial*", "/dev/tty.usbserial*", "/dev/cu.usbmodem*",
     "/dev/tty.usbmodem*", "/dev/cu.*usb*"]
  else if system = "Linux" then ["/dev/ttyUSB*", "/dev/ttyACM*"]
  else []

/-- Fallback device used by `detect_default_port`, per platform. -/
def platform_fallback (system : String) : Option String :=
  if system = "Darwin" then none
  else if system = "Linux" then some "/dev/ttyUSB0"
  else if system = "Windows" then some "COM1"
  else none

/-- The pattern loop of `detect_default_port`: the first pattern with at
least one match returns its first match. -/
def first_glob (glob : String → List String) : List String → Option String
  | [] => none
  | p :: rest =>
    match glob p with
    | [] => first_glob glob rest
    | m :: _ => some m

/-- Model of `detect_default_port` from `src/modem.py`, with `platform.system()` and
`glob.glob` as stub parameters. -/
def detect_default_port (system : String) (glob : String → List String) : Option String :=
  match first_glob glob (platform_patterns system) with
  | some m => some m
  | none => platform_fallback system

def insertSorted (s : String) : List String → List String
  | [] => [s]
  | t :: rest => if s ≤ t then s :: t :: rest else t :: insertSorted s rest

/-- Python `sorted` on strings (insertion sort). -/
def sortStrings (l : List String) : List String := l.foldr insertSorted []

/-- Pattern lists used by `list_available_ports`, per platform (Windows
returns an empty list before the loop — same result as no patterns). -/
def list_patterns (system : String) : List String :=
  if system = "Darwin" then ["/dev/cu.*", "/dev/tty.*"]
  else if system = "Linux" then ["/dev/ttyUSB*", "/dev/ttyACM*", "/dev/serial/by-id/*"]
  else []

/-- Model of `list_available_ports` from `src/modem.py`. -/
def list_available_ports (system : String) (glob : String → List String) : List String :=
  (list_patterns system).foldl (fun ports p => ports ++ sortStrings (glob p)) []

theorem first_glob_append_of_nil (glob : String → List String) (pre l : List String)
    (h : ∀ q ∈ pre, glob q = []) :
    first_glob glob (pre ++ l) = first_glob glob l := by
  induction pre with
  | nil => rfl
  | cons q pre ih =>
    have hq : glob q = [] := h q (by simp)
    simp only [List.cons_append, first_glob, hq]
    exact ih fun q hmem => h q (by simp [hmem])

theorem first_glob_cons_of_ne (glob : String → List String) (p : String) (l : List String)
    (h : glob p ≠ []) : first_glob glob (p :: l) = (glob p).head? := by
  simp only [first_glob]
  cases hg : glob p with
  | nil => exact absurd hg h
  | cons m ms => rfl

theorem first_glob_eq_none (glob : String → List String) (l : List String)
    (h : ∀ p ∈ l, glob p = []) : first_glob glob l = none := by
  induction l with
  | nil => rfl
  | cons p rest ih =>
    have hp : glob p = [] := h p (by simp)
    simp only [first_glob, hp]
    exact ih fun q hmem => h q (by simp [hmem])

/-- Claim C3: `detect_default_port` tries the platform's ordered pattern list
and, at the first pattern with at least one match, returns that pattern's
first match; if no pattern matches it returns the platform fallback —
`/dev/ttyUSB0` on Linux, `COM1` on Windows, absent on macOS (`Darwin`) and on
unknown platforms. -/
theorem c3_detect_default_port (system : String) (glob : String → List String) :
    (∀ pre p post, platform_patterns system = pre ++ p :: post →
      (∀ q ∈ pre, glob q = []) → glob p ≠ [] →
      detect_default_port system glob = (glob p).head?) ∧
    ((∀ p ∈ platform_patterns system, glob p = []) →
      detect_default_port system glob = platform_fallback system) ∧
    platform_fallback "Linux" = some "/dev/ttyUSB0" ∧
    platform_fallback "Windows" = some "COM1" ∧
    platform_fallback "Darwin" = none ∧
    (system ≠ "Darwin" → system ≠ "Linux" → system ≠ "Windows" →
      platform_fallback system = none) := by
  refine ⟨?_, ?_, by decide, by decide, by decide, ?_⟩
  · intro pre p post hpat hpre hp
    unfold detect_default_port
    rw [hpat, first_glob_append_of_nil glob pre _ hpre, first_glob_cons_of_ne glob p post hp]
    cases hg : glob p with
    | nil => exact absurd hg hp
    | cons m ms => simp [hg]
  · intro h
    unfold detect_default_port
    rw [first_glob_eq_none glob _ h]
  · intro h1 h2 h3
    unfold platform_fallback
    rw [if_neg h1, if_neg h2, if_neg h3]

theorem c3_detect_default_port_witness :
    detect_default_port "Linux"
      (fun p => if p = "/dev/ttyUSB*" then ["/dev/ttyUSB0"] else []) = some "/dev/ttyUSB0" ∧
    detect_default_port "Darwin" (fun _ => []) = none :=
  ⟨((c3_detect_default_port "Linux" _).1 [] "/dev/ttyUSB*" ["/dev/ttyACM*"]
      (by decide) (by simp) (by decide)).trans (by decide),
   ((c3_detect_default_port "Darwin" _).2.1 (fun p _ => rfl)).trans (by decide)⟩

/-- Digit part of a Python integer literal: nonempty ASCII digits with single
underscores allowed between digits (`1_000`). -/
def digitpart : List Char → Bool
  | [] => false
  | [c] => c.isDigit
  | c :: '_' :: rest => c.isDigit && digitpart rest
  | c :: rest => c.isDigit && digitpart rest

/-- Numeric value of a digit string (underscores skipped). -/
def digitsVal (l : List Char) : Nat :=
  l.foldl (fun acc c => if c.isDigit then acc * 10 + (c.toNat - 48) else acc) 0

/-- Python `int(s)` on an already-stripped string: optional sign, then a
digit part; anything else raises `ValueError`, modelled as `none`. -/
def pyToInt : List Char → Option Int
  | '+' :: rest => if digitpart rest then some (digitsVal rest : Int) else none
  | '-' :: rest => if digitpart rest then some (-(digitsVal rest : Int)) else none
  | s => if digitpart s then some (digitsVal s : Int) else none

/-- The read loop of `prompt_select_port`, run against a finite script of
inputs.  Result `(outcome, reports)`: outcome `none` means the script ran out
while the loop was still re-prompting, `some none` models the Python function
returning `None` (cancel), `some (some c)` returning candidate `c`;
`reports` counts the invalid-input messages printed. -/
def selectLoop (choices : List String) : List (List Char) → Option (Option String) × Nat
  | [] => (none, 0)
  | sel :: rest =>
    if pyStrip sel = [] then (some none, 0)
    else
      match pyToInt (pyStrip sel) with
      | some n =>
        if 1 ≤ n ∧ n ≤ (choices.length : Int) then
          (some choices[(n - 1).toNat]?, 0)
        else
          ((selectLoop choices rest).1, (selectLoop choices rest).2 + 1)
      | none =>
        ((selectLoop choices rest).1, (selectLoop choices rest).2 + 1)

/-- Model of `prompt_select_port` from `src/modem.py` (menu printing omitted, the
injected `input_fn` replaced by a finite input script). -/
def prompt_select_port (choices : List String) (inputs : List (List Char)) :
    Option (Option String) × Nat :=
  if choices = [] then (some none, 0) else selectLoop choices inputs

/-- An input on which the selector loop stops: empty or whitespace-only
after stripping, or an integer in `[1, len choices]`. -/
def isTerminating (choices : List String) (sel : List Char) : Bool :=
  (pyStrip sel).isEmpty ||
    (match pyToInt (pyStrip sel) with
     | some n => decide (1 ≤ n ∧ n ≤ (choices.length : Int))
     | none => false)

theorem selectLoop_cons (choices : List String) (sel : List Char)
    (rest : List (List Char)) :
    selectLoop choices (sel :: rest) =
      if pyStrip sel = [] then (some none, 0)
      else
        match pyToInt (pyStrip sel) with
        | some n =>
          if 1 ≤ n ∧ n ≤ (choices.length : Int) then
            (some choices[(n - 1).toNat]?, 0)
          else ((selectLoop choices rest).1, (selectLoop choices rest).2 + 1)
        | none => ((selectLoop choices rest).1, (selectLoop choices rest).2 + 1) := rfl

theorem pyToInt_nil : pyToInt [] = none := rfl

theorem selectLoop_step_invalid (choices : List String) (sel : List Char)
    (rest : List (List Char)) (h : isTerminating choices sel = false) :
    selectLoop choices (sel :: rest) =
      ((selectLoop choices rest).1, (selectLoop choices rest).2 + 1) := by
  unfold isTerminating at h
  rw [Bool.or_eq_false_iff] at h
  obtain ⟨h1, h2⟩ := h
  have hne : pyStrip sel ≠ [] := by
    intro he
    rw [he] at h1
    exact absurd h1 (by decide)
  rw [selectLoop_cons, if_neg hne]
  cases hint : pyToInt (pyStrip sel) with
  | none => simp only [hint]
  | some n =>
    rw [hint] at h2
    simp only [decide_eq_false_iff_not] at h2
    simp only [hint, if_neg h2]

theorem selectLoop_step_terminal (choices : List String) (t : List Char)
    (rest : List (List Char)) (h : isTerminating choices t = true) :
    selectLoop choices (t :: rest) = ((selectLoop choices [t]).1, 0) ∧
      (selectLoop choices [t]).1 ≠ none := by
  by_cases he : pyStrip t = []
  · refine ⟨?_, ?_⟩ <;> simp [selectLoop, he]
  · have h2 : (match pyToInt (pyStrip t) with
        | some n => decide (1 ≤ n ∧ n ≤ (choices.length : Int))
        | none => false) = true := by
      unfold isTerminating at h
      rcases Bool.or_eq_true_iff.1 h with h1 | h1
      · exact absurd (List.isEmpty_iff.1 h1) he
      · exact h1
    cases hint : pyToInt (pyStrip t) with
    | none => rw [hint] at h2; simp at h2
    | some n =>
      rw [hint] at h2
      have hr := of_decide_eq_true h2
      constructor
      · rw [selectLoop_cons, selectLoop_cons, if_neg he, if_neg he]
        simp only [hint, if_pos hr]
      · rw [selectLoop_cons, if_neg he]
        simp only [hint, if_pos hr]
        simp

/-- Claim C4: `prompt_select_port`: an empty candidate list returns absent at
once, with a result independent of the input script (the source returns
before reading any input); an input that strips to empty cancels (absent);
an input that strips to an integer `n` with `1 ≤ n ≤ len choices` returns the
`n`-th candidate (1-indexed). -/
theorem c4_prompt_select_port (choices : List String) :
    (∀ inputs, choices = [] → prompt_select_port choices inputs = (some none, 0)) ∧
    (∀ sel rest, choices ≠ [] → pyStrip sel = [] →
      prompt_select_port choices (sel :: rest) = (some none, 0)) ∧
    (∀ sel rest (n : Int), choices ≠ [] → pyToInt (pyStrip sel) = some n →
      1 ≤ n → n ≤ (choices.length : Int) →
      ∃ c, choices[(n - 1).toNat]? = some c ∧
        prompt_select_port choices (sel :: rest) = (some (some c), 0)) := by
  refine ⟨?_, ?_, ?_⟩
  · intro inputs h
    simp [prompt_select_port, h]
  · intro sel rest hc h
    unfold prompt_select_port
    rw [if_neg hc, selectLoop_cons, if_pos h]
  · intro sel rest n hc hint h1 h2
    have hne : pyStrip sel ≠ [] := by
      intro he
      rw [he, pyToInt_nil] at hint
      exact Option.noConfusion hint
    have hidx : (n - 1).toNat < choices.length := by omega
    refine ⟨choices[(n - 1).toNat], List.getElem?_eq_getElem hidx, ?_⟩
    unfold prompt_select_port
    rw [if_neg hc, selectLoop_cons, if_neg hne]
    simp only [hint, List.getElem?_eq_getElem hidx]
    rw [if_pos ⟨h1, h2⟩]

theorem c4_prompt_select_port_witness :
    prompt_select_port [] [['9']] = (some none, 0) ∧
    prompt_select_port ["/dev/ttyUSB0", "/dev/ttyUSB1"] [[]] = (some none, 0) ∧
    prompt_select_port ["/dev/ttyUSB0", "/dev/ttyUSB1"] [['2']] =
      (some (some "/dev/ttyUSB1"), 0) := by
  refine ⟨(c4_prompt_select_port []).1 [['9']] rfl,
    (c4_prompt_select_port _).2.1 [] [] (by decide) (by decide), ?_⟩
  obtain ⟨c, hc, hp⟩ :=
    (c4_prompt_select_port ["/dev/ttyUSB0", "/dev/ttyUSB1"]).2.2 ['2'] [] 2
      (by decide) (by decide) (by decide) (by decide)
  have he : c = "/dev/ttyUSB1" := by
    rw [show ((2 : Int) - 1).toNat = 1 from rfl] at hc
    simpa using hc.symm
  rw [he] at hp
  exact hp

/-- Claim C5: for a non-empty candidate list, the selector loop terminates
exactly at the first terminating input (empty/whitespace-only, or an integer
in `[1, len]`); every other input adds one invalid-input report and another
iteration, and a script with no terminating input leaves the loop still
prompting after consuming the whole script, with one report per input. -/
theorem c5_selector_termination (choices : List String) (_hc : choices ≠ []) :
    (∀ inputs : List (List Char), (∀ sel ∈ inputs, isTerminating choices sel = false) →
      selectLoop choices inputs = (none, inputs.length)) ∧
    (∀ pre t post, (∀ sel ∈ pre, isTerminating choices sel = false) →
      isTerminating choices t = true →
      selectLoop choices (pre ++ t :: post) = ((selectLoop choices [t]).1, pre.length) ∧
        (selectLoop choices [t]).1 ≠ none) := by
  constructor
  · intro inputs h
    induction inputs with
    | nil => rfl
    | cons sel rest ih =>
      rw [selectLoop_step_invalid choices sel rest (h sel (by simp)),
        ih fun s hs => h s (by simp [hs])]
      simp
  · intro pre t post hpre ht
    induction pre with
    | nil =>
      simpa using selectLoop_step_terminal choices t post ht
    | cons s pre ih =>
      have hstep := selectLoop_step_invalid choices s (pre ++ t :: post)
        (hpre s (by simp))
      have hih := ih fun q hq => hpre q (by simp [hq])
      rw [List.cons_append, hstep, hih.1]
      exact ⟨rfl, hih.2⟩

theorem c5_selector_termination_witness :
    selectLoop ["/dev/ttyUSB0", "/dev/ttyUSB1"] [['x'], ['3'], ['1']] =
      (some (some "/dev/ttyUSB0"), 2) ∧
    selectLoop ["/dev/ttyUSB0", "/dev/ttyUSB1"] [['x'], ['y']] = (none, 2) := by
  constructor
  · have h := ((c5_selector_termination ["/dev/ttyUSB0", "/dev/ttyUSB1"] (by decide)).2
      [['x'], ['3']] ['1'] [] (by decide) (by decide)).1
    exact h.trans (by decide)
  · have h := (c5_selector_termination ["/dev/ttyUSB0", "/dev/ttyUSB1"] (by decide)).1
      [['x'], ['y']] (by decide)
    exact h.trans (by decide)

/-- Model of `USBModemHandler.detect_incoming_call` from `src/modem.py`, run against a
finite script of incoming lines, each already decoded leniently
(`readline().decode(errors="ignore")` is the byte-level I/O boundary; one
script element is one decoded line).  `none` means the script was exhausted
with the session still listening (the real loop keeps blocking); `some b`
means the function returned `b`. -/
def detect_incoming_call : List (List Char) → Option Bool
  | [] => none
  | l :: rest =>
    if is_ring_line (pyStrip l) then some true
    else detect_incoming_call rest

theorem detect_incoming_call_cons (l : List Char) (rest : List (List Char)) :
    detect_incoming_call (l :: rest) =
      if is_ring_line (pyStrip l) then some true else detect_incoming_call rest := rfl

/-- Claim C6: `detect_incoming_call` returns only after reading a line that the
Line Classifier, applied to the decoded and trimmed line, accepts as a ring;
every non-ring line keeps the session listening (a script of only non-ring
lines produces no return), and whenever the function returns, its value is
`true`. -/
theorem c6_detect_incoming_call (lines : List (List Char)) :
    (∀ b, detect_incoming_call lines = some b → b = true) ∧
    (detect_incoming_call lines = some true →
      ∃ l ∈ lines, is_ring_line (pyStrip l) = true) ∧
    ((∀ l ∈ lines, is_ring_line (pyStrip l) = false) →
      detect_incoming_call lines = none) := by
  induction lines with
  | nil =>
    exact ⟨fun b h => Option.noConfusion h, fun h => Option.noConfusion h, fun _ => rfl⟩
  | cons l rest ih =>
    by_cases hr : is_ring_line (pyStrip l) = true
    · have he : detect_incoming_call (l :: rest) = some true := by
        rw [detect_incoming_call_cons, if_pos hr]
      refine ⟨?_, ?_, ?_⟩
      · intro b h
        rw [he] at h
        exact (Option.some.inj h).symm
      · intro _
        exact ⟨l, by simp, hr⟩
      · intro h
        exact absurd hr (by simp [h l (by simp)])
    · have he : detect_incoming_call (l :: rest) = detect_incoming_call rest := by
        rw [detect_incoming_call_cons, if_neg hr]
      refine ⟨?_, ?_, ?_⟩
      · intro b h
        rw [he] at h
        exact ih.1 b h
      · intro h
        rw [he] at h
        obtain ⟨x, hx, hrx⟩ := ih.2.1 h
        exact ⟨x, by simp [hx], hrx⟩
      · intro h
        rw [he]
        exact ih.2.2 fun x hx => h x (by simp [hx])

theorem c6_detect_incoming_call_witness :
    (∃ l ∈ [['h', 'i'], ['R', 'I', 'N', 'G']], is_ring_line (pyStrip l) = true) ∧
    detect_incoming_call [['h', 'i'], ['+', '+']] = none :=
  ⟨(c6_detect_incoming_call _).2.1 (by decide),
   (c6_detect_incoming_call _).2.2 (by decide)⟩

/-- Model of `AUDIO_CANDIDATES` from `src/modem.py`. -/
def AUDIO_CANDIDATES : List String := ["afplay", "aplay", "play"]

/-- Model of `choose_audio_player` from `src/modem.py`, with `shutil.which` as a stub
predicate: return the first available candidate, else `None`. -/
def choose_audio_player (which : String → Bool) : Option String :=
  AUDIO_CANDIDATES.find? which

/-- Model of the constructor line `self.audio_player = audio_player or choose_audio_player()`:
Python `or` falls through on a falsy (`None` or empty) argument. -/
def init_audio_player (arg : Option String) (which : String → Bool) : Option String :=
  if pyTruthy arg then arg else choose_audio_player which

/-- Errors surfaced by the embedded session (`serial.Serial` failures,
device write failures, and the `RuntimeError` of `play_recording`). -/
inductive ModemError
  | deviceUnavailable
  | deviceIOError
  | noAudioPlayer
deriving DecidableEq

/-- Observable effects of a run: bytes written to the serial device (in
order), external player invocations, and whether `close` was called.
`failAt` is the environment's choice of which device write (0-indexed,
counted by `widx`) raises an I/O error; `none` means writes succeed. -/
structure World where
  writes : List String
  widx : Nat
  failAt : Option Nat
  plays : List (String × String)
  closed : Bool
deriving DecidableEq

def initWorld (failAt : Option Nat) : World :=
  { writes := [], widx := 0, failAt := failAt, plays := [], closed := false }

/-- Model of `self.ser.write(bytes)`: append to the write trace, or raise at the
environment-chosen failing write. -/
def ser_write (s : String) (w : World) : World × Option ModemError :=
  if w.failAt = some w.widx then (w, some ModemError.deviceIOError)
  else ({ w with writes := w.writes ++ [s], widx := w.widx + 1 }, none)

/-- The session object constructed by `USBModemHandler.__init__`. -/
structure Session where
  port : String
  baudrate : Nat
  audio_player : Option String
deriving DecidableEq

/-- Model of `USBModemHandler.__init__`: open the serial port (failure propagates and
no session is produced), write `ATE0\r`, resolve and cache the audio
player. -/
def mkSession (port : String) (baud : Nat) (audio_player : Option String)
    (which : String → Bool) (openOk : Bool) (w : World) :
    World × Except ModemError Session :=
  if !openOk then (w, Except.error ModemError.deviceUnavailable)
  else
    match ser_write "ATE0\r" w with
    | (w1, some e) => (w1, Except.error e)
    | (w1, none) =>
      (w1, Except.ok { port := port, baudrate := baud,
                       audio_player := init_audio_player audio_player which })

/-- Model of `USBModemHandler.play_recording`: raise if no player was resolved (Python
falsy check), else invoke the external player on the file. -/
def play_recording (s : Session) (audio_file : String) (w : World) :
    World × Option ModemError :=
  if pyTruthy s.audio_player = false then (w, some ModemError.noAudioPlayer)
  else
    match s.audio_player with
    | some p => ({ w with plays := w.plays ++ [(p, audio_file)] }, none)
    | none => (w, some ModemError.noAudioPlayer)

/-- Model of `USBModemHandler.close`. -/
def closeSession (w : World) : World := { w with closed := true }

/-- Sequence two effectful steps, short-circuiting on a raised error. -/
def andThen (r : World × Option ModemError) (f : World → World × Option ModemError) :
    World × Option ModemError :=
  match r with
  | (w, some e) => (w, some e)
  | (w, none) => f w

/-- Parsed CLI arguments (`argparse` output). -/
structure Args where
  port : String
  baud : Nat
  audio : String
  dtmf : String
  no_audio : Bool
deriving DecidableEq

/-- The body of `main`'s `try:` block after a ring was detected:
`pickup_call`, optional `play_recording`, `send_dtmf`, `hangup`. -/
def call_body (s : Session) (args : Args) (w : World) : World × Option ModemError :=
  andThen (ser_write "ATA\r" w) fun w =>
    andThen (if args.no_audio then (w, none) else play_recording s args.audio w) fun w =>
      andThen (ser_write ("AT+VTS=" ++ args.dtmf ++ "\r") w) fun w =>
        ser_write "ATH\r" w

/-- How a run of `main` ended: early return after a port-resolution error
(no modem action), blocked forever (ring never detected, or the interactive
selector's input script ran out), normal completion, or a propagated
exception. -/
inductive MainOutcome
  | portError
  | blocked
  | ok
  | raised (e : ModemError)
deriving DecidableEq

structure MainResult where
  outcome : MainOutcome
  world : World
  session : Option Session
deriving DecidableEq

/-- How `main` resolved the serial port, with instrumentation recording
whether the default-detection and interactive-selection code paths ran. -/
inductive PortOutcome
  | ok (p : String)
  | err
  | blocked
deriving DecidableEq

structure PortResolution where
  outcome : PortOutcome
  detect_called : Bool
  prompt_called : Bool
deriving DecidableEq

/-- The port-resolution block of `main` (`port = args.port; if not port: ...`),
continued after detection yielded nothing: enumerate candidates and prompt
only when candidates exist and stdin is a TTY, else log an error and return. -/
def resolve_port_prompt (system : String) (glob : String → List String)
    (isatty : Bool) (stdin : List (List Char)) : PortResolution :=
  let candidates := list_available_ports system glob
  if !candidates.isEmpty && isatty then
    match (prompt_select_port candidates stdin).1 with
    | none => { outcome := PortOutcome.blocked, detect_called := true, prompt_called := true }
    | some none => { outcome := PortOutcome.err, detect_called := true, prompt_called := true }
    | some (some s) =>
      if s.isEmpty then
        { outcome := PortOutcome.err, detect_called := true, prompt_called := true }
      else { outcome := PortOutcome.ok s, detect_called := true, prompt_called := true }
  else { outcome := PortOutcome.err, detect_called := true, prompt_called := false }

/-- The port-resolution block of `main`: explicit (truthy) `args.port` wins
without calling `detect_default_port`; otherwise detection, then interactive
selection. -/
def resolve_port (argsPort : String) (system : String) (glob : String → List String)
    (isatty : Bool) (stdin : List (List Char)) : PortResolution :=
  if !argsPort.isEmpty then
    { outcome := PortOutcome.ok argsPort, detect_called := false, prompt_called := false }
  else
    match detect_default_port system glob with
    | some p =>
      if p.isEmpty then resolve_port_prompt system glob isatty stdin
      else { outcome := PortOutcome.ok p, detect_called := true, prompt_called := false }
    | none => resolve_port_prompt system glob isatty stdin

/-- The environment of a `main` run: platform, filesystem globbing, TTY
status, stdin script, `PATH` lookup, whether the serial open succeeds, the
failing-write choice, and the incoming serial lines. -/
structure Env where
  system : String
  glob : String → List String
  isatty : Bool
  stdin : List (List Char)
  which : String → Bool
  openOk : Bool
  failAt : Option Nat
  lines : List (List Char)

/-- Model of the `try: ... finally: modem.close()` part of `main`, entered with a
constructed session: block on ring detection, then run the call sequence;
`close` runs on both the normal and the raising exit, and not at all if the
ring wait never returns. -/
def main_after_session (args : Args) (env : Env) (w : World) (s : Session) : MainResult :=
  match detect_incoming_call env.lines with
  | none => { outcome := MainOutcome.blocked, world := w, session := some s }
  | some ring =>
    match (if ring then call_body s args w else (w, none)) with
    | (w2, some e) =>
      { outcome := MainOutcome.raised e, world := closeSession w2, session := some s }
    | (w2, none) =>
      { outcome := MainOutcome.ok, world := closeSession w2, session := some s }

/-- The part of `main` after port resolution: construct the session (a
failure propagates with no session and no `close`), then enter the
`try/finally` block. -/
def main_with_port (args : Args) (env : Env) (port : String) : MainResult :=
  match mkSession port args.baud
      (if args.no_audio then none else choose_audio_player env.which)
      env.which env.openOk (initWorld env.failAt) with
  | (w, Except.error e) =>
    { outcome := MainOutcome.raised e, world := w, session := none }
  | (w, Except.ok s) => main_after_session args env w s

/-- Model of `main` from `src/modem.py`, after argument parsing: resolve the port,
construct the session, wait for a ring, then run the call sequence inside
`try/finally modem.close()`. -/
def main_run (args : Args) (env : Env) : MainResult :=
  match (resolve_port args.port env.system env.glob env.isatty env.stdin).outcome with
  | PortOutcome.err =>
    { outcome := MainOutcome.portError, world := initWorld env.failAt, session := none }
  | PortOutcome.blocked =>
    { outcome := MainOutcome.blocked, world := initWorld env.failAt, session := none }
  | PortOutcome.ok port => main_with_port args env port

theorem main_run_port_ok (args : Args) (env : Env) (p : String)
    (h : (resolve_port args.port env.system env.glob env.isatty env.stdin).outcome
      = PortOutcome.ok p) :
    main_run args env = main_with_port args env p := by
  unfold main_run
  rw [h]

theorem main_run_err (args : Args) (env : Env)
    (h : (resolve_port args.port env.system env.glob env.isatty env.stdin).outcome
      = PortOutcome.err) :
    main_run args env =
      { outcome := MainOutcome.portError, world := initWorld env.failAt,
        session := none } := by
  unfold main_run
  rw [h]

theorem main_run_blocked (args : Args) (env : Env)
    (h : (resolve_port args.port env.system env.glob env.isatty env.stdin).outcome
      = PortOutcome.blocked) :
    main_run args env =
      { outcome := MainOutcome.blocked, world := initWorld env.failAt,
        session := none } := by
  unfold main_run
  rw [h]

theorem main_with_port_error (args : Args) (env : Env) (p : String) (w : World)
    (e : ModemError)
    (h : mkSession p args.baud
        (if args.no_audio then none else choose_audio_player env.which)
        env.which env.openOk (initWorld env.failAt) = (w, Except.error e)) :
    main_with_port args env p =
      { outcome := MainOutcome.raised e, world := w, session := none } := by
  unfold main_with_port
  rw [h]

theorem main_with_port_ok (args : Args) (env : Env) (p : String) (w : World)
    (s : Session)
    (h : mkSession p args.baud
        (if args.no_audio then none else choose_audio_player env.which)
        env.which env.openOk (initWorld env.failAt) = (w, Except.ok s)) :
    main_with_port args env p = main_after_session args env w s := by
  unfold main_with_port
  rw [h]

theorem main_after_session_blocked (args : Args) (env : Env) (w : World) (s : Session)
    (h : detect_incoming_call env.lines = none) :
    main_after_session args env w s =
      { outcome := MainOutcome.blocked, world := w, session := some s } := by
  unfold main_after_session
  rw [h]

theorem main_after_session_no_ring (args : Args) (env : Env) (w : World) (s : Session)
    (h : detect_incoming_call env.lines = some false) :
    main_after_session args env w s =
      { outcome := MainOutcome.ok, world := closeSession w, session := some s } := by
  unfold main_after_session
  rw [h]
  rfl

theorem main_after_session_ring_raise (args : Args) (env : Env) (w w2 : World)
    (s : Session) (e : ModemError)
    (h : detect_incoming_call env.lines = some true)
    (hcb : call_body s args w = (w2, some e)) :
    main_after_session args env w s =
      { outcome := MainOutcome.raised e, world := closeSession w2, session := some s } := by
  unfold main_after_session
  rw [h]
  simp only [if_pos rfl, hcb]
  rfl

theorem main_after_session_ring_ok (args : Args) (env : Env) (w w2 : World)
    (s : Session)
    (h : detect_incoming_call env.lines = some true)
    (hcb : call_body s args w = (w2, none)) :
    main_after_session args env w s =
      { outcome := MainOutcome.ok, world := closeSession w2, session := some s } := by
  unfold main_after_session
  rw [h]
  simp only [if_pos rfl, hcb]
  rfl

/-- Last-occurrence value of `--flag VALUE` / `--flag=VALUE` in `argv`
(argparse keeps the last occurrence). -/
def parse_flag_value (flag : String) : List String → Option String
  | [] => none
  | a :: rest =>
    match parse_flag_value flag rest with
    | some v => some v
    | none =>
      if a = flag then rest.head?
      else if a.startsWith (flag ++ "=") then some (a.drop (flag.length + 1))
      else none

/-- Model of `parse_args` from `src/modem.py`: note the `--port` default is the
non-empty string `/dev/ttyUSB0`. -/
def parse_args (argv : List String) : Args :=
  { port := (parse_flag_value "--port" argv).getD "/dev/ttyUSB0"
  , baud := (match (parse_flag_value "--baud" argv).map (fun s => pyToInt (pyStrip s.data)) with
      | some (some n) => n.toNat
      | _ => 9600)
  , audio := (parse_flag_value "--audio" argv).getD "message.wav"
  , dtmf := (parse_flag_value "--dtmf" argv).getD "1"
  , no_audio := argv.contains "--no-audio" }

/-- Model of `main` from `src/modem.py`. -/
def main (argv : List String) (env : Env) : MainResult := main_run (parse_args argv) env

theorem ser_write_error_kind (s : String) (w : World) (e : ModemError)
    (h : (ser_write s w).2 = some e) : e = ModemError.deviceIOError := by
  unfold ser_write at h
  split at h
  · exact (Option.some.inj h).symm
  · exact Option.noConfusion h

theorem ser_write_not_noAudio (s : String) (w : World) :
    (ser_write s w).2 ≠ some ModemError.noAudioPlayer := fun h =>
  ModemError.noConfusion (ser_write_error_kind s w _ h)

theorem andThen_not_noAudio (r : World × Option ModemError)
    (f : World → World × Option ModemError)
    (hr : r.2 ≠ some ModemError.noAudioPlayer)
    (hf : ∀ w, (f w).2 ≠ some ModemError.noAudioPlayer) :
    (andThen r f).2 ≠ some ModemError.noAudioPlayer := by
  obtain ⟨w, e⟩ := r
  cases e with
  | none => exact hf w
  | some e => exact hr

theorem call_body_no_audio_not_noAudio (s : Session) (args : Args) (w : World)
    (h : args.no_audio = true) :
    (call_body s args w).2 ≠ some ModemError.noAudioPlayer := by
  unfold call_body
  rw [h]
  refine andThen_not_noAudio _ _ (ser_write_not_noAudio _ _) fun w1 => ?_
  refine andThen_not_noAudio _ _ (by simp) fun w2 => ?_
  exact andThen_not_noAudio _ _ (ser_write_not_noAudio _ _) fun w3 =>
    ser_write_not_noAudio _ _

theorem mkSession_error_kind (port : String) (baud : Nat) (ap : Option String)
    (which : String → Bool) (openOk : Bool) (w : World) (e : ModemError)
    (h : (mkSession port baud ap which openOk w).2 = Except.error e) :
    e = ModemError.deviceUnavailable ∨ e = ModemError.deviceIOError := by
  unfold mkSession at h
  split at h
  · exact Or.inl (Except.error.inj h).symm
  · rename_i hopen
    cases hsw : ser_write "ATE0\r" w with
    | mk w1 e1 =>
      rw [hsw] at h
      cases e1 with
      | none => exact Except.noConfusion h
      | some e1 =>
        have he1 : e1 = ModemError.deviceIOError := ser_write_error_kind _ _ _ (by rw [hsw])
        exact Or.inr ((Except.error.inj h).symm.trans he1)

/-- Claim C1 refuted as stated: invoking `main` with no `--port`
flag does *not* attempt default-port detection.  `argparse` gives `--port`
the non-empty default `/dev/ttyUSB0`, so `if not port:` is false, the branch
that would call `detect_default_port` (and, failing that, interactive
selection) is skipped, and the default string is used as the port directly —
contradicting both the claim and the source's own comment "explicit
override, auto-detection, or interactive selection". -/
theorem c1_no_port_flag_skips_detection :
    (parse_args []).port = "/dev/ttyUSB0" ∧
    ∀ (system : String) (glob : String → List String) (isatty : Bool)
      (stdin : List (List Char)),
      resolve_port (parse_args []).port system glob isatty stdin =
        { outcome := PortOutcome.ok "/dev/ttyUSB0",
          detect_called := false, prompt_called := false } := by
  refine ⟨rfl, ?_⟩
  intro system glob isatty stdin
  rfl

/-- Claim C7: `play_recording` raises the no-audio-player error iff the session
holds no (truthy) resolved player; and under `--no-audio`, `main` skips
playback entirely, so no run with `no_audio` set ever ends with that error
raised. -/
theorem c7_play_recording_error (s : Session) (audio_file : String) (w : World) :
    ((play_recording s audio_file w).2 = some ModemError.noAudioPlayer ↔
      pyTruthy s.audio_player = false) ∧
    (∀ (args : Args) (env : Env), args.no_audio = true →
      (main_run args env).outcome ≠ MainOutcome.raised ModemError.noAudioPlayer) := by
  constructor
  · by_cases hp : pyTruthy s.audio_player = false
    · simp [play_recording, hp]
    · have hp' : pyTruthy s.audio_player = true := by simpa using hp
      cases hap : s.audio_player with
      | none => rw [hap] at hp'; exact absurd hp' (by decide)
      | some p =>
        rw [hap] at hp'
        simp [play_recording, hap, hp']
  · intro args env hna
    cases hr : (resolve_port args.port env.system env.glob env.isatty env.stdin).outcome with
    | err =>
      rw [main_run_err args env hr]
      intro hcon
      exact MainOutcome.noConfusion hcon
    | blocked =>
      rw [main_run_blocked args env hr]
      intro hcon
      exact MainOutcome.noConfusion hcon
    | ok p =>
      rw [main_run_port_ok args env p hr]
      cases hm : mkSession p args.baud
          (if args.no_audio then none else choose_audio_player env.which)
          env.which env.openOk (initWorld env.failAt) with
      | mk w1 eres =>
        cases eres with
        | error e =>
          rw [main_with_port_error args env p w1 e hm]
          have hkind := mkSession_error_kind _ _ _ _ _ _ e (by rw [hm])
          intro hcon
          have hraised : MainOutcome.raised e = MainOutcome.raised ModemError.noAudioPlayer :=
            hcon
          injection hraised with he
          rcases hkind with rfl | rfl <;> exact ModemError.noConfusion he
        | ok s1 =>
          rw [main_with_port_ok args env p w1 s1 hm]
          cases hdet : detect_incoming_call env.lines with
          | none =>
            rw [main_after_session_blocked args env w1 s1 hdet]
            intro hcon
            exact MainOutcome.noConfusion hcon
          | some ring =>
            cases ring with
            | false =>
              rw [main_after_session_no_ring args env w1 s1 hdet]
              intro hcon
              exact MainOutcome.noConfusion hcon
            | true =>
              cases hcb : call_body s1 args w1 with
              | mk w2 e2 =>
                cases e2 with
                | none =>
                  rw [main_after_session_ring_ok args env w1 w2 s1 hdet hcb]
                  intro hcon
                  exact MainOutcome.noConfusion hcon
                | some e2 =>
                  rw [main_after_session_ring_raise args env w1 w2 s1 e2 hdet hcb]
                  have hne := call_body_no_audio_not_noAudio s1 args w1 hna
                  rw [hcb] at hne
                  intro hcon
                  have hraised : MainOutcome.raised e2 =
                      MainOutcome.raised ModemError.noAudioPlayer := hcon
                  injection hraised with he
                  exact hne (by rw [he])

theorem c7_play_recording_error_witness :
    (main_run { port := "/dev/ttyUSB0", baud := 9600, audio := "message.wav",
                dtmf := "1", no_audio := true }
      { system := "Linux", glob := fun _ => [], isatty := false, stdin := [],
        which := fun _ => false, openOk := true, failAt := none,
        lines := [['R', 'I', 'N', 'G']] }).outcome ≠
      MainOutcome.raised ModemError.noAudioPlayer :=
  (c7_play_recording_error { port := "p", baudrate := 9600, audio_player := none }
    "f.wav" (initWorld none)).2 _ _ rfl

theorem ser_write_ok (s : String) (w : World) (h : w.failAt = none) :
    ser_write s w =
      ({ w with writes := w.writes ++ [s], widx := w.widx + 1 }, none) := by
  unfold ser_write
  rw [if_neg (by simp [h])]

theorem mkSession_ok (port : String) (baud : Nat) (ap : Option String)
    (which : String → Bool) (w : World) (h : w.failAt = none) :
    mkSession port baud ap which true w =
      ({ w with writes := w.writes ++ ["ATE0\r"], widx := w.widx + 1 },
        Except.ok { port := port, baudrate := baud,
                    audio_player := init_audio_player ap which }) := by
  unfold mkSession
  rw [ser_write_ok _ _ h]
  rfl

theorem choose_audio_player_not_empty (which : String → Bool) (q : String)
    (h : choose_audio_player which = some q) : q.isEmpty = false := by
  have hm : q ∈ AUDIO_CANDIDATES := List.mem_of_find?_eq_some h
  fin_cases hm <;> rfl

/-- The device state right after a successful `USBModemHandler.__init__`
on a non-failing device: one write, `ATE0\r`. -/
def worldAfterOpen : World :=
  { writes := ["ATE0\r"], widx := 1, failAt := none, plays := [], closed := false }

theorem mkSession_ok_init (port : String) (baud : Nat) (ap : Option String)
    (which : String → Bool) :
    mkSession port baud ap which true (initWorld none) =
      (worldAfterOpen,
        Except.ok { port := port, baudrate := baud,
                    audio_player := init_audio_player ap which }) := by
  rw [mkSession_ok port baud ap which (initWorld none) rfl]
  rfl

theorem call_body_ok (s : Session) (args : Args) (w : World) (h : w.failAt = none)
    (hp : args.no_audio = true ∨ pyTruthy s.audio_player = true) :
    (call_body s args w).2 = none ∧
    (call_body s args w).1.writes =
      w.writes ++ ["ATA\r", "AT+VTS=" ++ args.dtmf ++ "\r", "ATH\r"] := by
  by_cases hna : args.no_audio = true
  · constructor <;> simp [call_body, andThen, hna, ser_write_ok, h]
  · have hna' : args.no_audio = false := by simpa using hna
    have htru : pyTruthy s.audio_player = true := by
      rcases hp with h1 | h2
      · exact absurd h1 hna
      · exact h2
    cases hap : s.audio_player with
    | none => rw [hap] at htru; exact absurd htru (by decide)
    | some p =>
      rw [hap] at htru
      constructor <;>
        simp [call_body, andThen, hna', play_recording, hap, htru, ser_write_ok, h]

/-- Claim C8: in a run of `main` whose port resolution succeeds, whose device
does not fail, where a ring is detected and playback either succeeds or is
disabled, the bytes written to the device are exactly the fixed
carriage-return-terminated strings `ATE0\r` at open, `ATA\r` on answer,
`AT+VTS=<tone>\r` with the tone string interpolated with no escaping, and
`ATH\r` on hangup, in that order. -/
theorem c8_at_command_bytes (args : Args) (env : Env) (p : String)
    (hres : (resolve_port args.port env.system env.glob env.isatty env.stdin).outcome
      = PortOutcome.ok p)
    (hopen : env.openOk = true) (hfail : env.failAt = none)
    (hring : detect_incoming_call env.lines = some true)
    (hplay : args.no_audio = true ∨ choose_audio_player env.which ≠ none) :
    (main_run args env).world.writes =
      ["ATE0\r", "ATA\r", "AT+VTS=" ++ args.dtmf ++ "\r", "ATH\r"] := by
  have hmk : mkSession p args.baud
      (if args.no_audio then none else choose_audio_player env.which)
      env.which env.openOk (initWorld env.failAt) =
      (worldAfterOpen, Except.ok
        { port := p, baudrate := args.baud,
          audio_player := init_audio_player
            (if args.no_audio then none else choose_audio_player env.which) env.which }) := by
    rw [hopen, hfail, mkSession_ok_init]
  rw [main_run_port_ok args env p hres, main_with_port_ok args env p worldAfterOpen _ hmk]
  set s1 : Session :=
    { port := p, baudrate := args.baud,
      audio_player := init_audio_player
        (if args.no_audio then none else choose_audio_player env.which) env.which }
    with hs1
  have hp1 : args.no_audio = true ∨ pyTruthy s1.audio_player = true := by
    by_cases hna : args.no_audio = true
    · exact Or.inl hna
    · have hna' : args.no_audio = false := by simpa using hna
      rcases hplay with h1 | h2
      · exact absurd h1 hna
      · cases hch : choose_audio_player env.which with
        | none => exact absurd hch h2
        | some q =>
          refine Or.inr ?_
          rw [hs1]
          simp only [hna', Bool.false_eq_true, if_false, hch]
          have hq : q.isEmpty = false := choose_audio_player_not_empty env.which q hch
          simp [init_audio_player, pyTruthy, hq]
  have hcb := call_body_ok s1 args worldAfterOpen rfl hp1
  cases hcbe : call_body s1 args worldAfterOpen with
  | mk w2 e2 =>
    rw [hcbe] at hcb
    obtain ⟨he2, hwr⟩ := hcb
    simp only at he2 hwr
    subst he2
    rw [main_after_session_ring_ok args env worldAfterOpen w2 s1 hring hcbe]
    simpa [closeSession, worldAfterOpen] using hwr

theorem c8_at_command_bytes_witness :
    (main_run { port := "/dev/ttyUSB0", baud := 9600, audio := "message.wav",
                dtmf := "5", no_audio := true }
      { system := "Linux", glob := fun _ => [], isatty := false, stdin := [],
        which := fun _ => false, openOk := true, failAt := none,
        lines := [['R', 'I', 'N', 'G']] }).world.writes =
      ["ATE0\r", "ATA\r", "AT+VTS=5\r", "ATH\r"] :=
  (c8_at_command_bytes
    { port := "/dev/ttyUSB0", baud := 9600, audio := "message.wav",
      dtmf := "5", no_audio := true }
    { system := "Linux", glob := fun _ => [], isatty := false, stdin := [],
      which := fun _ => false, openOk := true, failAt := none,
      lines := [['R', 'I', 'N', 'G']] }
    "/dev/ttyUSB0" rfl rfl rfl (by decide) (Or.inl rfl)).trans (by decide)

/-- Claim C9: in every finishing run of `main` where the session was
constructed, `close` is invoked on the session before `main` finishes (the
`finally:` block), even when the call sequence raises; and a construction
failure propagates with no partial session returned. -/
theorem c9_close_always (args : Args) (env : Env) :
    ((main_run args env).session.isSome = true →
      (main_run args env).outcome ≠ MainOutcome.blocked →
      (main_run args env).world.closed = true) ∧
    (∀ p e,
      (resolve_port args.port env.system env.glob env.isatty env.stdin).outcome
        = PortOutcome.ok p →
      (mkSession p args.baud
          (if args.no_audio then none else choose_audio_player env.which)
          env.which env.openOk (initWorld env.failAt)).2 = Except.error e →
      (main_run args env).outcome = MainOutcome.raised e ∧
        (main_run args env).session = none) := by
  constructor
  · cases hr : (resolve_port args.port env.system env.glob env.isatty env.stdin).outcome with
    | err =>
      rw [main_run_err args env hr]
      intro hs _
      exact Bool.noConfusion hs
    | blocked =>
      rw [main_run_blocked args env hr]
      intro hs _
      exact Bool.noConfusion hs
    | ok p =>
      rw [main_run_port_ok args env p hr]
      cases hm : mkSession p args.baud
          (if args.no_audio then none else choose_audio_player env.which)
          env.which env.openOk (initWorld env.failAt) with
      | mk w1 eres =>
        cases eres with
        | error e =>
          rw [main_with_port_error args env p w1 e hm]
          intro hs _
          exact Bool.noConfusion hs
        | ok s1 =>
          rw [main_with_port_ok args env p w1 s1 hm]
          cases hdet : detect_incoming_call env.lines with
          | none =>
            rw [main_after_session_blocked args env w1 s1 hdet]
            intro _ hb
            exact absurd rfl hb
          | some ring =>
            cases ring with
            | false =>
              rw [main_after_session_no_ring args env w1 s1 hdet]
              intro _ _
              rfl
            | true =>
              cases hcb : call_body s1 args w1 with
              | mk w2 e2 =>
                cases e2 with
                | none =>
                  rw [main_after_session_ring_ok args env w1 w2 s1 hdet hcb]
                  intro _ _
                  rfl
                | some e =>
                  rw [main_after_session_ring_raise args env w1 w2 s1 e hdet hcb]
                  intro _ _
                  rfl
  · intro p e hres hmk
    rw [main_run_port_ok args env p hres]
    cases hm : mkSession p args.baud
        (if args.no_audio then none else choose_audio_player env.which)
        env.which env.openOk (initWorld env.failAt) with
    | mk w1 eres =>
      rw [hm] at hmk
      cases eres with
      | error e1 =>
        have he : e1 = e := Except.error.inj hmk
        subst he
        rw [main_with_port_error args env p w1 e1 hm]
        exact ⟨rfl, rfl⟩
      | ok s1 => exact Except.noConfusion hmk

theorem c9_close_always_witness :
    (main_run { port := "/dev/ttyUSB0", baud := 9600, audio := "message.wav",
                dtmf := "1", no_audio := true }
      { system := "Linux", glob := fun _ => [], isatty := false, stdin := [],
        which := fun _ => false, openOk := true, failAt := none,
        lines := [['R', 'I', 'N', 'G']] }).world.closed = true ∧
    ((main_run { port := "/dev/ttyUSB0", baud := 9600, audio := "message.wav",
                 dtmf := "1", no_audio := true }
      { system := "Linux", glob := fun _ => [], isatty := false, stdin := [],
        which := fun _ => false, openOk := false, failAt := none,
        lines := [] }).outcome = MainOutcome.raised ModemError.deviceUnavailable ∧
      (main_run { port := "/dev/ttyUSB0", baud := 9600, audio := "message.wav",
                  dtmf := "1", no_audio := true }
        { system := "Linux", glob := fun _ => [], isatty := false, stdin := [],
          which := fun _ => false, openOk := false, failAt := none,
          lines := [] }).session = none) :=
  ⟨(c9_close_always _ _).1 (by decide) (by decide),
   (c9_close_always _ _).2 "/dev/ttyUSB0" ModemError.deviceUnavailable rfl rfl⟩

theorem ser_write_plays (s : String) (w : World) : ((ser_write s w).1).plays = w.plays := by
  unfold ser_write
  split <;> rfl

theorem andThen_plays (r : World × Option ModemError) (f : World → World × Option ModemError)
    (hf : ∀ w, ((f w).1).plays = w.plays) :
    ((andThen r f).1).plays = (r.1).plays := by
  obtain ⟨w, e⟩ := r
  cases e with
  | none => exact hf w
  | some e => rfl

theorem call_body_plays_no_audio (s : Session) (args : Args) (w : World)
    (h : args.no_audio = true) : ((call_body s args w).1).plays = w.plays := by
  unfold call_body
  rw [h]
  exact (andThen_plays _ _ fun w1 =>
      andThen_plays _ _ fun w2 =>
        (andThen_plays _ _ fun w3 => ser_write_plays _ _).trans
          (ser_write_plays _ _)).trans
    (ser_write_plays _ _)

theorem mkSession_ok_player (port : String) (baud : Nat) (ap : Option String)
    (which : String → Bool) (openOk : Bool) (w : World) (s : Session)
    (h : (mkSession port baud ap which openOk w).2 = Except.ok s) :
    s.audio_player = init_audio_player ap which := by
  unfold mkSession at h
  split at h
  · exact Except.noConfusion h
  · cases hsw : ser_write "ATE0\r" w with
    | mk w1 e1 =>
      rw [hsw] at h
      cases e1 with
      | none =>
        have := Except.ok.inj h
        rw [← this]
      | some e1 => exact Except.noConfusion h

theorem mkSession_ok_world_plays (port : String) (baud : Nat) (ap : Option String)
    (which : String → Bool) (openOk : Bool) (w : World) :
    ((mkSession port baud ap which openOk w).1).plays = w.plays := by
  unfold mkSession
  split
  · rfl
  · cases hsw : ser_write "ATE0\r" w with
    | mk w1 e1 =>
      have hp := ser_write_plays "ATE0\r" w
      rw [hsw] at hp
      cases e1 <;> exact hp

/-- Claim C10: constructing a `USBModemHandler` with no explicit player always
re-resolves a player from the search path and caches it on the session —
even under `--no-audio`, where `main` passes no player, the session may still
hold a resolved player; audio suppression comes only from `main` skipping
playback (no play invocation happens), not from the session lacking a
player. -/
theorem c10_session_reresolves_player :
    (∀ which : String → Bool, init_audio_player none which = choose_audio_player which) ∧
    (∀ (port : String) (baud : Nat) (which : String → Bool) (openOk : Bool)
      (w : World) (s : Session),
      (mkSession port baud none which openOk w).2 = Except.ok s →
      s.audio_player = choose_audio_player which) ∧
    (∀ (args : Args) (env : Env) (s : Session), args.no_audio = true →
      (main_run args env).session = some s →
      s.audio_player = choose_audio_player env.which ∧
        (main_run args env).world.plays = []) := by
  refine ⟨fun which => rfl, ?_, ?_⟩
  · intro port baud which openOk w s h
    exact (mkSession_ok_player port baud none which openOk w s h).trans rfl
  · intro args env s hna hses
    cases hr : (resolve_port args.port env.system env.glob env.isatty env.stdin).outcome with
    | err =>
      rw [main_run_err args env hr] at hses
      exact Option.noConfusion hses
    | blocked =>
      rw [main_run_blocked args env hr] at hses
      exact Option.noConfusion hses
    | ok p =>
      rw [main_run_port_ok args env p hr] at hses ⊢
      cases hm : mkSession p args.baud
          (if args.no_audio then none else choose_audio_player env.which)
          env.which env.openOk (initWorld env.failAt) with
      | mk w1 eres =>
        have hw1plays : w1.plays = [] := by
          have h0 := mkSession_ok_world_plays p args.baud
            (if args.no_audio then none else choose_audio_player env.which)
            env.which env.openOk (initWorld env.failAt)
          rw [hm] at h0
          exact h0
        cases eres with
        | error e =>
          rw [main_with_port_error args env p w1 e hm] at hses
          exact Option.noConfusion hses
        | ok s1 =>
          have hplayer : s1.audio_player = choose_audio_player env.which := by
            have h1 := mkSession_ok_player p args.baud
              (if args.no_audio then none else choose_audio_player env.which)
              env.which env.openOk (initWorld env.failAt) s1 (by rw [hm])
            rw [hna] at h1
            simpa [init_audio_player, pyTruthy] using h1
          rw [main_with_port_ok args env p w1 s1 hm] at hses ⊢
          cases hdet : detect_incoming_call env.lines with
          | none =>
            rw [main_after_session_blocked args env w1 s1 hdet] at hses ⊢
            have hs1 : s1 = s := Option.some.inj hses
            subst hs1
            exact ⟨hplayer, hw1plays⟩
          | some ring =>
            cases ring with
            | false =>
              rw [main_after_session_no_ring args env w1 s1 hdet] at hses ⊢
              have hs1 : s1 = s := Option.some.inj hses
              subst hs1
              exact ⟨hplayer, by simpa [closeSession] using hw1plays⟩
            | true =>
              cases hcb : call_body s1 args w1 with
              | mk w2 e2 =>
                have hw2 : w2.plays = [] := by
                  have h2 := call_body_plays_no_audio s1 args w1 hna
                  rw [hcb] at h2
                  exact h2.trans hw1plays
                cases e2 with
                | some e =>
                  rw [main_after_session_ring_raise args env w1 w2 s1 e hdet hcb] at hses ⊢
                  have hs1 : s1 = s := Option.some.inj hses
                  subst hs1
                  exact ⟨hplayer, by simpa [closeSession] using hw2⟩
                | none =>
                  rw [main_after_session_ring_ok args env w1 w2 s1 hdet hcb] at hses ⊢
                  have hs1 : s1 = s := Option.some.inj hses
                  subst hs1
                  exact ⟨hplayer, by simpa [closeSession] using hw2⟩

theorem c10_session_reresolves_player_witness :
    ((⟨"/dev/ttyUSB0", 9600, some "aplay"⟩ : Session).audio_player =
      choose_audio_player (fun c => c == "aplay") ∧
    (main_run { port := "/dev/ttyUSB0", baud := 9600, audio := "message.wav",
                dtmf := "1", no_audio := true }
      { system := "Linux", glob := fun _ => [], isatty := false, stdin := [],
        which := fun c => c == "aplay", openOk := true, failAt := none,
        lines := [['R', 'I', 'N', 'G']] }).world.plays = []) :=
  c10_session_reresolves_player.2.2
    { port := "/dev/ttyUSB0", baud := 9600, audio := "message.wav",
      dtmf := "1", no_audio := true }
    { system := "Linux", glob := fun _ => [], isatty := false, stdin := [],
      which := fun c => c == "aplay", openOk := true, failAt := none,
      lines := [['R', 'I', 'N', 'G']] }
    ⟨"/dev/ttyUSB0", 9600, some "aplay"⟩ rfl (by decide)

end Modem
